import Mathlib

set_option maxRecDepth 8000

/-
Verification of the `RequestFilter` log-enrichment filter from
django_requestlogging/logging_filters.py, against its specification.

The request object is modelled as a structure of optional attributes
(an absent Python attribute, or a `None` value where the code only
tests truthiness, is `none`).  The logging record is modelled as a
structure whose enrichment fields are `Option`-valued: `none` means
the attribute has not been set on the record.
-/

namespace DjangoRequestLogging

/-- Dynamic value a record field can hold: the code assigns either a
string (including the placeholder) or a numeric organization id. -/
inductive Val where
  | str (s : String)
  | num (n : Nat)
deriving DecidableEq, Repr

/-- Organization object reachable as `user.organization`; its `id`
may be `None` (modelled `none`) and `0` counts as falsy in Python. -/
structure Org where
  id : Option Nat
deriving DecidableEq, Repr

/-- User object reachable as `request.user`: `is_anonymous` models the
result of `user.is_anonymous()`, `username` the `username` attribute,
`organization` the possibly-`None` `organization` attribute. -/
structure User where
  is_anonymous : Bool
  username : String
  organization : Option Org
deriving DecidableEq, Repr

/-- Request object: each attribute the filter reads with a defaulting
`getattr` is optional (`none` = attribute absent).  `path` is carried
although the code never reads it, so that claims mentioning
`request.path` can be stated. -/
structure Request where
  method : Option String
  path : Option String
  path_info : Option String
  user : Option User
  COOKIES : Option (List (String × String))
  META : Option (List (String × String))
deriving DecidableEq, Repr

/-- Logging record: the eleven enrichment fields (`none` = attribute
not set on the record) plus one opaque attribute `extra` standing for
everything else the record carries. -/
structure Record where
  request_method : Option String
  path_info : Option String
  username : Option String
  org_id : Option Val
  uuid : Option String
  session_id : Option String
  session_id_hashed : Option String
  remote_addr : Option String
  remote_xff : Option String
  server_protocol : Option String
  http_user_agent : Option String
  extra : String
deriving DecidableEq, Repr

/-- Association-list lookup, modelling `dict.__contains__`/presence of
a key in the Python dict. -/
def lookupKV (l : List (String × String)) (k : String) : Option String :=
  (l.find? (fun p => p.1 == k)).map (fun p => p.2)

/-- `d.get(k, dflt)` on a Python dict modelled as an association list. -/
def pyGet (l : List (String × String)) (k dflt : String) : String :=
  (lookupKV l k).getD dflt

/-- `getattr(request, name, dflt)` where `request` itself may be `None`:
`getattr(None, name, dflt)` also yields the default. -/
def getattrD {α : Type} (request : Option Request) (f : Request → Option α)
    (dflt : α) : α :=
  match request with
  | none => dflt
  | some r => (f r).getD dflt

/-- `getattr(request, 'user', None)` flattened: absent request or absent
attribute both give `none`. -/
def getUser (request : Option Request) : Option User :=
  match request with
  | none => none
  | some r => r.user

/-- `getattr(request, 'COOKIES', {})`. -/
def getCookies (request : Option Request) : List (String × String) :=
  getattrD request (fun r => r.COOKIES) []

/-- `getattr(request, 'META', {})`. -/
def getMeta (request : Option Request) : List (String × String) :=
  getattrD request (fun r => r.META) []

/-- Truthy organization id of `user.organization`, following the guard
`user.organization and user.organization.id`: `none` when the
organization is `None`, its `id` is `None`, or its `id` is `0`. -/
def truthyOrgId (org : Option Org) : Option Nat :=
  match org with
  | none => none
  | some o =>
    match o.id with
    | none => none
    | some n => if n = 0 then none else some n

/-- Reduce to a 32-bit word. -/
def w32 (n : Nat) : Nat := n % 4294967296

/-- Rotate a 32-bit word left by `s` bits (`s < 32`). -/
def rotl (s n : Nat) : Nat := w32 (n * 2 ^ s + n / 2 ^ (32 - s))

/-- Bitwise complement of a 32-bit word. -/
def wnot (n : Nat) : Nat := 4294967295 - w32 n

/-- Lowercase hexadecimal digit for `n % 16`. -/
def hexChar (n : Nat) : Char :=
  let m := n % 16
  if m < 10 then Char.ofNat (48 + m) else Char.ofNat (87 + m)

/-- Big-endian hexadecimal rendering of `n` on `d` digits. -/
def hexDigits (d n : Nat) : List Char :=
  match d with
  | 0 => []
  | k + 1 => hexDigits k (n / 16) ++ [hexChar n]

/-- Bytes of a string, one byte per character code point: faithful to
Python 2 `str` for the ASCII data the filter handles. -/
def strBytes (s : String) : List Nat := s.data.map Char.toNat

/-- Group bytes into big-endian 32-bit words. -/
def toWords (bs : List Nat) : List Nat :=
  match bs with
  | b0 :: b1 :: b2 :: b3 :: rest =>
    (((b0 * 256 + b1) * 256 + b2) * 256 + b3) :: toWords rest
  | _ => []

/-- SHA-1 padding: append `0x80`, zeros to 56 mod 64, then the 64-bit
big-endian bit length. -/
def sha1Pad (bs : List Nat) : List Nat :=
  let L := bs.length
  let z := (55 + 64 - L % 64) % 64
  let bl := 8 * L
  bs ++ [128] ++ List.replicate z 0 ++
    [bl / 2 ^ 56 % 256, bl / 2 ^ 48 % 256, bl / 2 ^ 40 % 256,
     bl / 2 ^ 32 % 256, bl / 2 ^ 24 % 256, bl / 2 ^ 16 % 256,
     bl / 2 ^ 8 % 256, bl % 256]

/-- Compression state: the five 32-bit chaining words. -/
structure Sha1St where
  a : Nat
  b : Nat
  c : Nat
  d : Nat
  e : Nat
deriving DecidableEq, Repr

/-- Message-schedule extension: given the reversed list of words so
far, prepend `fuel` further words `rotl 1 (w3 ^^^ w8 ^^^ w14 ^^^ w16)`. -/
def sha1Extend (fuel : Nat) (rws : List Nat) : List Nat :=
  match fuel with
  | 0 => rws.reverse
  | k + 1 =>
    let x := Nat.xor (Nat.xor (rws.getD 2 0) (rws.getD 7 0))
      (Nat.xor (rws.getD 13 0) (rws.getD 15 0))
    sha1Extend k (rotl 1 x :: rws)

/-- One SHA-1 round at index `i` with schedule word `wi`. -/
def sha1Round (i wi : Nat) (st : Sha1St) : Sha1St :=
  let f :=
    if i < 20 then Nat.lor (Nat.land st.b st.c) (Nat.land (wnot st.b) st.d)
    else if i < 40 then Nat.xor (Nat.xor st.b st.c) st.d
    else if i < 60 then
      Nat.lor (Nat.lor (Nat.land st.b st.c) (Nat.land st.b st.d))
        (Nat.land st.c st.d)
    else Nat.xor (Nat.xor st.b st.c) st.d
  let k :=
    if i < 20 then 1518500249
    else if i < 40 then 1859775393
    else if i < 60 then 2400959708
    else 3395469782
  let temp := w32 (rotl 5 st.a + f + st.e + k + wi)
  ⟨temp, st.a, rotl 30 st.b, st.c, st.d⟩

/-- Run the 80 rounds over the schedule words starting at index `i`. -/
def sha1Rounds (i : Nat) (ws : List Nat) (st : Sha1St) : Sha1St :=
  match ws with
  | [] => st
  | w :: rest => sha1Rounds (i + 1) rest (sha1Round i w st)

/-- Compress one 16-word chunk into the chaining state. -/
def sha1Compress (chunk : List Nat) (h : Sha1St) : Sha1St :=
  let ws := sha1Extend 64 chunk.reverse
  let st := sha1Rounds 0 ws h
  ⟨w32 (h.a + st.a), w32 (h.b + st.b), w32 (h.c + st.c),
   w32 (h.d + st.d), w32 (h.e + st.e)⟩

/-- Fold the compression over all 16-word chunks (`fuel` bounds the
number of words left). -/
def sha1Chunks (fuel : Nat) (ws : List Nat) (h : Sha1St) : Sha1St :=
  match fuel, ws with
  | 0, _ => h
  | _, [] => h
  | k + 1, ws => sha1Chunks k (ws.drop 16) (sha1Compress (ws.take 16) h)

/-- Modelled from the spec: `hashlib.sha1(v).hexdigest()` — the SHA-1
digest of the session-id bytes rendered as 40 lowercase hex characters.
`hashlib` is external to this repository; this is the standard SHA-1
the spec names. -/
def sha1Hexdigest (s : String) : String :=
  let ws := toWords (sha1Pad (strBytes s))
  let h := sha1Chunks ws.length ws
    ⟨1732584193, 4023233417, 2562383102, 271733878, 3285377520⟩
  String.mk (hexDigits 8 h.a ++ hexDigits 8 h.b ++ hexDigits 8 h.c ++
    hexDigits 8 h.d ++ hexDigits 8 h.e)

/-- First seven characters of the hex digest, as assigned to
`record.session_id_hashed`. -/
def hashed7 (v : String) : String := (sha1Hexdigest v).take 7

/-- `RequestFilter.filter(record)`: adds information from the stored
request to the logging record, substituting the hyphen placeholder
when information cannot be extracted, and returns `True`.  Direct
translation of `RequestFilter.filter`; the first component is the
record after the attribute assignments, the second the return value. -/
def RequestFilter.filter (request : Option Request) (record : Record) :
    Record × Bool :=
  -- Basic
  let request_method := getattrD request (fun r => r.method) "-"
  let path_info := getattrD request (fun r => r.path_info) "-"
  -- User
  let user := getUser request
  let userFields : Option String × Option Val :=
    match user with
    | some u =>
      if !u.is_anonymous then
        (some u.username,
         match truthyOrgId u.organization with
         | some n => some (Val.num n)
         | none => record.org_id)
      else (some "-", some (Val.str "-"))
    | none => (some "-", some (Val.str "-"))
  -- Cookies
  let COOKIES := getCookies request
  let uuid := pyGet COOKIES "uuid" "-"
  -- Session
  let session_id := pyGet COOKIES "sessionid" "-"
  let session_id_hashed :=
    if session_id ≠ "-" then hashed7 session_id else "-"
  -- Headers
  let META := getMeta request
  let remote_addr := pyGet META "REMOTE_ADDR" "-"
  let remote_xff := pyGet META "HTTP_X_FORWARDED_FOR" "-"
  let server_protocol := pyGet META "SERVER_PROTOCOL" "-"
  let http_user_agent := pyGet META "HTTP_USER_AGENT" "-"
  ({ record with
      request_method := some request_method
      path_info := some path_info
      username := userFields.1
      org_id := userFields.2
      uuid := some uuid
      session_id := some session_id
      session_id_hashed := some session_id_hashed
      remote_addr := some remote_addr
      remote_xff := some remote_xff
      server_protocol := some server_protocol
      http_user_agent := some http_user_agent },
   true)

/-- Attribute access that fails (Python `AttributeError`) when the
receiver is absent/`None`. -/
def pyAttr {β α : Type} (x : Option β) (f : β → α) : Except String α :=
  match x with
  | none => Except.error "AttributeError"
  | some v => Except.ok (f v)

/-- Exception-aware translation of `RequestFilter.filter`: every plain
attribute access (`user.is_anonymous()`, `user.username`,
`user.organization`, `organization.id`) is a `pyAttr` that raises when
its receiver is absent, while `getattr`/`dict.get` calls keep their
defaults; the truthiness guards of the source are the only protection
against raising. -/
def RequestFilter.filterE (request : Option Request) (record : Record) :
    Except String (Record × Bool) := do
  let request_method := getattrD request (fun r => r.method) "-"
  let path_info := getattrD request (fun r => r.path_info) "-"
  let user := getUser request
  -- `if user and not user.is_anonymous():` -- short-circuit: the
  -- method is only called when `user` is truthy.
  let cond ← match user with
    | none => pure false
    | some _ => do
      let anon ← pyAttr user (fun u => u.is_anonymous)
      pure (!anon)
  let userFields : Option String × Option Val ←
    if cond then do
      let uname ← pyAttr user (fun u => u.username)
      let org ← pyAttr user (fun u => u.organization)
      -- `if user.organization and user.organization.id:` -- `.id` is
      -- only read when the organization is truthy.
      let oid ← match org with
        | none => pure record.org_id
        | some _ => do
          let i ← pyAttr org (fun o => o.id)
          match i with
          | none => pure record.org_id
          | some n =>
            if n = 0 then pure record.org_id else pure (some (Val.num n))
      pure (some uname, oid)
    else
      pure (some "-", some (Val.str "-"))
  let COOKIES := getCookies request
  let uuid := pyGet COOKIES "uuid" "-"
  let session_id := pyGet COOKIES "sessionid" "-"
  let session_id_hashed :=
    if session_id ≠ "-" then hashed7 session_id else "-"
  let META := getMeta request
  let remote_addr := pyGet META "REMOTE_ADDR" "-"
  let remote_xff := pyGet META "HTTP_X_FORWARDED_FOR" "-"
  let server_protocol := pyGet META "SERVER_PROTOCOL" "-"
  let http_user_agent := pyGet META "HTTP_USER_AGENT" "-"
  pure
    ({ record with
        request_method := some request_method
        path_info := some path_info
        username := userFields.1
        org_id := userFields.2
        uuid := some uuid
        session_id := some session_id
        session_id_hashed := some session_id_hashed
        remote_addr := some remote_addr
        remote_xff := some remote_xff
        server_protocol := some server_protocol
        http_user_agent := some http_user_agent },
     true)

/-- Condition under which the source assigns `record.org_id` at all:
user absent or anonymous (placeholder branch), or authenticated with a
truthy organization id (assignment branch).  When this is `false` the
source leaves `record.org_id` untouched. -/
def orgIdAssigned (request : Option Request) : Bool :=
  match getUser request with
  | none => true
  | some u => u.is_anonymous || (truthyOrgId u.organization).isSome

/-- Fresh logging record: none of the enrichment attributes set. -/
def rec0 : Record :=
  ⟨none, none, none, none, none, none, none, none, none, none, none,
   "log message"⟩

/-- Request with an authenticated user that has no organization. -/
def reqNoOrg : Request :=
  { method := some "GET", path := some "/a", path_info := some "/a",
    user := some ⟨false, "alice", none⟩,
    COOKIES := some [], META := some [] }

/-- Request whose `path` and `path_info` attributes differ. -/
def reqPath : Request :=
  { method := none, path := some "/a", path_info := some "/b",
    user := none, COOKIES := none, META := none }

/-- Request whose session-id cookie is literally the placeholder. -/
def reqDash : Request :=
  { method := none, path := none, path_info := none,
    user := none, COOKIES := some [("sessionid", "-")], META := none }

/-- Request with an ordinary session-id cookie. -/
def reqAbc : Request :=
  { method := none, path := none, path_info := none,
    user := none, COOKIES := some [("sessionid", "abc123")],
    META := none }

/-- Request with an authenticated user in organization 42. -/
def reqOrg42 : Request :=
  { method := some "GET", path := some "/a", path_info := some "/a",
    user := some ⟨false, "alice", some ⟨some 42⟩⟩,
    COOKIES := some [], META := some [] }

/-- Request with an authenticated user whose organization has the
present but falsy id 0. -/
def reqOrg0 : Request :=
  { method := some "GET", path := some "/a", path_info := some "/a",
    user := some ⟨false, "alice", some ⟨some 0⟩⟩,
    COOKIES := some [], META := some [] }

/-- C3: for every request (including an absent one) and every record,
`filter(record)` returns true: it never filters a record out. -/
theorem c3_filter_returns_true (request : Option Request) (rec : Record) :
    (RequestFilter.filter request rec).2 = true := by
  cases request <;> rfl

/-- C9: `filter(record)` writes only the eleven named enrichment
attributes: every other attribute of the record (modelled by `extra`)
is unchanged.  The stored request is not modified: `filter` is a pure
function of it. -/
theorem c9_frame (request : Option Request) (rec : Record) :
    ((RequestFilter.filter request rec).1).extra = rec.extra := by
  cases request <;> rfl

/-- C8: when the filter is constructed with no request at all,
`filter(record)` sets every one of the eleven output fields to the
placeholder. -/
theorem c8_no_request_all_placeholder (rec : Record) :
    ((RequestFilter.filter none rec).1).request_method = some "-" ∧
    ((RequestFilter.filter none rec).1).path_info = some "-" ∧
    ((RequestFilter.filter none rec).1).username = some "-" ∧
    ((RequestFilter.filter none rec).1).org_id = some (Val.str "-") ∧
    ((RequestFilter.filter none rec).1).uuid = some "-" ∧
    ((RequestFilter.filter none rec).1).session_id = some "-" ∧
    ((RequestFilter.filter none rec).1).session_id_hashed = some "-" ∧
    ((RequestFilter.filter none rec).1).remote_addr = some "-" ∧
    ((RequestFilter.filter none rec).1).remote_xff = some "-" ∧
    ((RequestFilter.filter none rec).1).server_protocol = some "-" ∧
    ((RequestFilter.filter none rec).1).http_user_agent = some "-" := by
  refine ⟨rfl, rfl, rfl, rfl, rfl, ?_, ?_, rfl, rfl, rfl, rfl⟩ <;> rfl

/-- C2: `filter(record)` completes without raising on every request,
in particular whenever a source attribute is missing: the
exception-aware translation `filterE`, in which plain attribute
accesses raise on an absent receiver, always returns `ok` with the
same result as `filter`. -/
theorem c2_no_exceptions (request : Option Request) (rec : Record) :
    RequestFilter.filterE request rec =
      Except.ok (RequestFilter.filter request rec) := by
  cases request with
  | none => rfl
  | some r =>
    obtain ⟨m, p, pi, u, ck, mt⟩ := r
    cases u with
    | none => rfl
    | some usr =>
      obtain ⟨anon, un, org⟩ := usr
      cases anon with
      | true => rfl
      | false =>
        cases org with
        | none => rfl
        | some o =>
          obtain ⟨oid⟩ := o
          cases oid with
          | none => rfl
          | some n => cases n with | zero => rfl | succ k => rfl

/-- C1 counterexample: for a request whose user is present, not
anonymous, and has no organization, `filter(record)` leaves `org_id`
unset on a fresh record — refuting the claim that all eleven fields
are always set. -/
theorem c1_org_id_left_unset :
    ((RequestFilter.filter (some reqNoOrg) rec0).1).org_id = none := rfl

/-- C1 (amended): after `filter(record)` the ten fields other than
`org_id` are always set, each to a real value or the placeholder;
`org_id` is set exactly when the user is absent/anonymous or has a
truthy organization id (`orgIdAssigned`), and is otherwise left
unchanged on the record. -/
theorem c1_fields_set (request : Option Request) (rec : Record) :
    ((RequestFilter.filter request rec).1).request_method.isSome = true ∧
    ((RequestFilter.filter request rec).1).path_info.isSome = true ∧
    ((RequestFilter.filter request rec).1).username.isSome = true ∧
    ((RequestFilter.filter request rec).1).uuid.isSome = true ∧
    ((RequestFilter.filter request rec).1).session_id.isSome = true ∧
    ((RequestFilter.filter request rec).1).session_id_hashed.isSome = true ∧
    ((RequestFilter.filter request rec).1).remote_addr.isSome = true ∧
    ((RequestFilter.filter request rec).1).remote_xff.isSome = true ∧
    ((RequestFilter.filter request rec).1).server_protocol.isSome = true ∧
    ((RequestFilter.filter request rec).1).http_user_agent.isSome = true ∧
    (orgIdAssigned request = true →
      ((RequestFilter.filter request rec).1).org_id.isSome = true) ∧
    (orgIdAssigned request = false →
      ((RequestFilter.filter request rec).1).org_id = rec.org_id) := by
  have main : (orgIdAssigned request = true →
      ((RequestFilter.filter request rec).1).org_id.isSome = true) ∧
      (orgIdAssigned request = false →
        ((RequestFilter.filter request rec).1).org_id = rec.org_id) := by
    cases request with
    | none => exact ⟨fun _ => rfl, fun h => Bool.noConfusion h⟩
    | some r =>
      obtain ⟨m, p, pi, u, ck, mt⟩ := r
      cases u with
      | none => exact ⟨fun _ => rfl, fun h => Bool.noConfusion h⟩
      | some usr =>
        obtain ⟨anon, un, org⟩ := usr
        cases anon with
        | true => exact ⟨fun _ => rfl, fun h => Bool.noConfusion h⟩
        | false =>
          cases org with
          | none => exact ⟨fun h => Bool.noConfusion h, fun _ => rfl⟩
          | some o =>
            obtain ⟨oid⟩ := o
            cases oid with
            | none => exact ⟨fun h => Bool.noConfusion h, fun _ => rfl⟩
            | some n =>
              cases n with
              | zero => exact ⟨fun h => Bool.noConfusion h, fun _ => rfl⟩
              | succ k => exact ⟨fun _ => rfl, fun h => Bool.noConfusion h⟩
  refine ⟨?_, ?_, ?_, ?_, ?_, ?_, ?_, ?_, ?_, ?_, main.1, main.2⟩ <;>
    · cases request with
      | none => rfl
      | some r =>
        obtain ⟨m, p, pi, u, ck, mt⟩ := r
        cases u with
        | none => rfl
        | some usr =>
          obtain ⟨anon, un, org⟩ := usr
          cases anon <;> rfl

/-- C1 witness: the amended claim applied to the organization-42
request, discharging the `orgIdAssigned` hypothesis. -/
theorem c1_fields_set_witness :
    ((RequestFilter.filter (some reqOrg42) rec0).1).org_id.isSome = true :=
  (c1_fields_set (some reqOrg42)
    rec0).2.2.2.2.2.2.2.2.2.2.1 (by decide)

/-- C4 counterexample: for a request whose `path` attribute is `/a`
but whose `path_info` attribute is `/b`, the record's `path_info`
field is `/b`, not `request.path` — refuting the claim that
`path_info` is sourced from `request.path`. -/
theorem c4_path_info_not_from_path :
    reqPath.path = some "/a" ∧
    ((RequestFilter.filter (some reqPath) rec0).1).path_info = some "/b" ∧
    ("/b" : String) ≠ "/a" := by
  exact ⟨rfl, rfl, by decide⟩

/-- C4 (amended): the record's `path_info` field equals the request's
`path_info` attribute when that attribute is present, and the
placeholder when it is absent. -/
theorem c4_path_info_source (request : Request) (rec : Record) :
    (∀ v, request.path_info = some v →
      ((RequestFilter.filter (some request) rec).1).path_info = some v) ∧
    (request.path_info = none →
      ((RequestFilter.filter (some request) rec).1).path_info = some "-") := by
  constructor
  · intro v hv
    simp [RequestFilter.filter, getattrD, hv]
  · intro hv
    simp [RequestFilter.filter, getattrD, hv]

/-- C4 witness: the amended claim applied to the concrete request
whose `path_info` attribute is `/b`. -/
theorem c4_path_info_source_witness :
    ((RequestFilter.filter (some reqPath) rec0).1).path_info = some "/b" :=
  (c4_path_info_source reqPath rec0).1 "/b" rfl

/-- C5 counterexample: for a request whose `sessionid` cookie is
literally `-`, the record's `session_id_hashed` is `-` and not the
first 7 hex characters of SHA-1 of `-` — refuting the claim for the
cookie value `-`. -/
theorem c5_dash_cookie_not_hashed :
    lookupKV (getCookies (some reqDash)) "sessionid" = some "-" ∧
    ((RequestFilter.filter (some reqDash) rec0).1).session_id_hashed
      = some "-" ∧
    hashed7 "-" = "3bc15c8" ∧ ("-" : String) ≠ "3bc15c8" := by
  refine ⟨rfl, rfl, by decide, by decide⟩

/-- C5 (amended): if the cookie mapping contains `sessionid` with a
value V other than `-`, then `session_id` = V and `session_id_hashed`
is the first 7 hex characters of SHA-1(V); if no `sessionid` cookie is
present, both fields are `-`. -/
theorem c5_session_fields (request : Option Request) (rec : Record) :
    (∀ v, lookupKV (getCookies request) "sessionid" = some v → v ≠ "-" →
      ((RequestFilter.filter request rec).1).session_id = some v ∧
      ((RequestFilter.filter request rec).1).session_id_hashed
        = some (hashed7 v)) ∧
    (lookupKV (getCookies request) "sessionid" = none →
      ((RequestFilter.filter request rec).1).session_id = some "-" ∧
      ((RequestFilter.filter request rec).1).session_id_hashed
        = some "-") := by
  constructor
  · intro v hv hne
    constructor
    · simp [RequestFilter.filter, pyGet, hv]
    · simp [RequestFilter.filter, pyGet, hv, hne]
  · intro hv
    constructor
    · simp [RequestFilter.filter, pyGet, hv]
    · simp [RequestFilter.filter, pyGet, hv]

/-- C5 witness: the amended claim applied to the request carrying
cookie `sessionid = abc123`, whose digest starts `6367c48`. -/
theorem c5_session_fields_witness :
    ((RequestFilter.filter (some reqAbc) rec0).1).session_id
      = some "abc123" ∧
    ((RequestFilter.filter (some reqAbc) rec0).1).session_id_hashed
      = some "6367c48" := by
  have h := (c5_session_fields (some reqAbc) rec0).1 "abc123"
    (by decide) (by decide)
  exact ⟨h.1, by rw [h.2]; decide⟩

/-- C6: if the request's user is absent or anonymous, `filter(record)`
sets both `username` and `org_id` to the placeholder, regardless of
any organization data reachable from the request. -/
theorem c6_absent_or_anonymous_user (request : Option Request)
    (rec : Record)
    (h : getUser request = none ∨
      ∃ u, getUser request = some u ∧ u.is_anonymous = true) :
    ((RequestFilter.filter request rec).1).username = some "-" ∧
    ((RequestFilter.filter request rec).1).org_id = some (Val.str "-") := by
  rcases h with h | ⟨u, hu, ha⟩
  · constructor <;> simp [RequestFilter.filter, h]
  · constructor <;> simp [RequestFilter.filter, hu, ha]

/-- C6 witness: applied to the absent request. -/
theorem c6_absent_or_anonymous_user_witness :
    ((RequestFilter.filter none rec0).1).username = some "-" ∧
    ((RequestFilter.filter none rec0).1).org_id = some (Val.str "-") :=
  c6_absent_or_anonymous_user none rec0 (Or.inl rfl)

/-- C7 counterexample: for a present, non-anonymous user whose
organization has the present id 0, the truthiness guard fails and
`org_id` is left unset — refuting the claim's general clause that
`org_id` equals `request.user.organization.id` whenever user,
organization, and id are all present. -/
theorem c7_org_id_zero_unset :
    reqOrg0.user = some ⟨false, "alice", some ⟨some 0⟩⟩ ∧
    ((RequestFilter.filter (some reqOrg0) rec0).1).org_id = none :=
  ⟨rfl, rfl⟩

/-- C7 (amended): if the request's user is present, not anonymous, and
has an organization whose id is present and truthy (nonzero) — in
particular id 42 — then `filter(record)` sets `org_id` to that id;
when the present id is falsy (0 or None), `org_id` is not assigned. -/
theorem c7_org_id_truthy (request : Option Request) (rec : Record)
    (u : User) (o : Org) (n : Nat)
    (hu : getUser request = some u) (ha : u.is_anonymous = false)
    (ho : u.organization = some o) (hi : o.id = some n) (hn : n ≠ 0) :
    ((RequestFilter.filter request rec).1).org_id = some (Val.num n) := by
  simp [RequestFilter.filter, hu, ha, truthyOrgId, ho, hi, hn]

/-- C7 witness: applied to the concrete organization-42 request. -/
theorem c7_org_id_truthy_witness :
    ((RequestFilter.filter (some reqOrg42) rec0).1).org_id
      = some (Val.num 42) :=
  c7_org_id_truthy (some reqOrg42) rec0 ⟨false, "alice", some ⟨some 42⟩⟩
    ⟨some 42⟩ 42 rfl rfl rfl rfl (by decide)

/-- C10: if the cookie mapping contains `sessionid` with the literal
value `-`, then `session_id` is `-` and `session_id_hashed` is `-`
(no hash is computed): the filter cannot distinguish a literal `-`
session id from an absent one. -/
theorem c10_dash_session_id (request : Option Request) (rec : Record)
    (h : lookupKV (getCookies request) "sessionid" = some "-") :
    ((RequestFilter.filter request rec).1).session_id = some "-" ∧
    ((RequestFilter.filter request rec).1).session_id_hashed = some "-" := by
  constructor <;> simp [RequestFilter.filter, pyGet, h]

/-- C10 witness: applied to the request whose `sessionid` cookie is
the literal placeholder. -/
theorem c10_dash_session_id_witness :
    ((RequestFilter.filter (some reqDash) rec0).1).session_id = some "-" ∧
    ((RequestFilter.filter (some reqDash) rec0).1).session_id_hashed
      = some "-" :=
  c10_dash_session_id (some reqDash) rec0 (by decide)

end DjangoRequestLogging
